import Mathlib

/-!
Verification of the simulation pipeline in `src/simulator/src/main.rs`.

The Rust program reads a JSON `SimulationRequest` from stdin, base64- and
XDR-decodes the transaction envelope and the ledger-entry snapshot, walks
the envelope's operations pushing invocation log lines, and prints a
`SimulationResponse`. External crates (`base64`, `serde_json`,
`soroban_env_host`) are modelled as an explicit environment of decoder
functions and a host value; the control flow, error messages, response
assembly and the fault classifier `decode_wasm_trap` are translated
directly from the source.
-/

/-! ## String utilities (models of Rust `str` operations) -/

/-- Model of "pattern is a leading segment of the character list":
`subAt pat s = true` iff `pat` occurs at the start of `s`.
Used to model Rust `str::contains`. -/
def subAt : List Char → List Char → Bool
  | [], _ => true
  | _ :: _, [] => false
  | c :: cs, d :: ds => c == d && subAt cs ds

/-- `hasSub s pat = true` iff `pat` occurs contiguously somewhere in `s`. -/
def hasSub : List Char → List Char → Bool
  | [], pat => pat.isEmpty
  | s@(_ :: rest), pat => subAt pat s || hasSub rest pat

/-- Model of Rust `str::contains(pat)` (substring containment). -/
def strContains (s pat : String) : Bool :=
  hasSub s.data pat.data

/-- Model of Rust `str::to_lowercase()`; the descriptions matched by the
classifier are ASCII, where Rust lowercasing agrees with `Char.toLower`. -/
def toLowercase (s : String) : String :=
  String.mk (s.data.map Char.toLower)

theorem subAt_append {pat s : List Char} (h : subAt pat s = true) (t : List Char) :
    subAt pat (s ++ t) = true := by
  induction pat generalizing s with
  | nil => rfl
  | cons c cs ih =>
    cases s with
    | nil => simp [subAt] at h
    | cons d ds =>
      simp only [subAt, Bool.and_eq_true] at h
      simp only [List.cons_append, subAt, Bool.and_eq_true]
      exact ⟨h.1, ih h.2⟩

theorem hasSub_append_left {s pat : List Char} (h : hasSub s pat = true) (t : List Char) :
    hasSub (s ++ t) pat = true := by
  induction s with
  | nil =>
    simp only [hasSub, List.isEmpty_iff] at h
    subst h
    cases t with
    | nil => rfl
    | cons c cs => simp [hasSub, subAt]
  | cons c cs ih =>
    simp only [hasSub, Bool.or_eq_true] at h
    rcases h with h | h
    · simp only [List.cons_append, hasSub, Bool.or_eq_true]
      exact Or.inl (subAt_append h t)
    · simp only [List.cons_append, hasSub, Bool.or_eq_true]
      exact Or.inr (ih h)

/-- If the pattern occurs in `a`, it occurs in `a ++ b`. -/
theorem strContains_append_left {a : String} (pat : String)
    (h : strContains a pat = true) (b : String) :
    strContains (a ++ b) pat = true := by
  cases a with
  | mk la =>
    cases b with
    | mk lb => exact hasSub_append_left h lb

/-! ## Data model: the XDR types the pipeline inspects

Only the structure the source code actually pattern-matches on is kept:
ledger keys/entries are opaque decoded values (the code discards them),
and the operation/host-function unions keep the `InvokeContract` arm the
code distinguishes, collapsing every other arm (matched by `_` in the
source) into a single `Other` constructor. -/

/-- A decoded `soroban_env_host::xdr::LedgerKey` (opaque to this pipeline). -/
structure LedgerKey where
  tag : Nat
deriving DecidableEq

/-- A decoded `soroban_env_host::xdr::LedgerEntry` (opaque to this pipeline). -/
structure LedgerEntry where
  tag : Nat
deriving DecidableEq

/-- Arguments of an invoke-contract host function; `contract_address` holds
the Debug rendering of the address, which is what the source interpolates
into the log line. -/
structure InvokeContractArgs where
  contract_address : String
deriving DecidableEq

/-- `soroban_env_host::xdr::HostFunction`: the source only distinguishes
`InvokeContract` from everything else (`_` arm). -/
inductive HostFunction where
  | InvokeContract (invoke_args : InvokeContractArgs)
  | OtherHostFunction
deriving DecidableEq

/-- `soroban_env_host::xdr::InvokeHostFunctionOp`. -/
structure InvokeHostFunctionOp where
  host_function : HostFunction
deriving DecidableEq

/-- `soroban_env_host::xdr::OperationBody`: the source only distinguishes
`InvokeHostFunction` from every other operation kind. -/
inductive OperationBody where
  | InvokeHostFunction (host_fn_op : InvokeHostFunctionOp)
  | OtherOperation
deriving DecidableEq

/-- `soroban_env_host::xdr::Operation`. -/
structure Operation where
  body : OperationBody
deriving DecidableEq

/-- The operation list carried by a v1 transaction. -/
structure Transaction where
  operations : List Operation
deriving DecidableEq

/-- The operation list carried by a v0 transaction. -/
structure TransactionV0 where
  operations : List Operation
deriving DecidableEq

/-- `soroban_env_host::xdr::TransactionV1Envelope`. -/
structure TransactionV1Envelope where
  tx : Transaction
deriving DecidableEq

/-- `soroban_env_host::xdr::TransactionV0Envelope`. -/
structure TransactionV0Envelope where
  tx : TransactionV0
deriving DecidableEq

/-- `soroban_env_host::xdr::FeeBumpTransactionInnerTx`: the wire format
defines a single arm, a v1 envelope. -/
inductive FeeBumpTransactionInnerTx where
  | Tx (tx_v1 : TransactionV1Envelope)
deriving DecidableEq

/-- The fee-bump transaction wrapping an inner transaction. -/
structure FeeBumpTransaction where
  inner_tx : FeeBumpTransactionInnerTx
deriving DecidableEq

/-- `soroban_env_host::xdr::FeeBumpTransactionEnvelope`. -/
structure FeeBumpTransactionEnvelope where
  tx : FeeBumpTransaction
deriving DecidableEq

/-- `soroban_env_host::xdr::TransactionEnvelope`: the three wire variants. -/
inductive TransactionEnvelope where
  | Tx (tx_v1 : TransactionV1Envelope)
  | TxV0 (tx_v0 : TransactionV0Envelope)
  | TxFeeBump (bump : FeeBumpTransactionEnvelope)
deriving DecidableEq

/-- Operation extraction, main.rs lines 87-93: unwrap the active envelope
variant (and, for fee-bump, its inner transaction). -/
def extractOperations : TransactionEnvelope → List Operation
  | .Tx tx_v1 => tx_v1.tx.operations
  | .TxV0 tx_v0 => tx_v0.tx.operations
  | .TxFeeBump bump =>
    match bump.tx.inner_tx with
    | .Tx tx_v1 => tx_v1.tx.operations

/-! ## Execution host (external collaborator, `soroban_env_host::Host`)

The pipeline constructs one host per run (main.rs line 56), raises its
diagnostic level (line 57), and — this is the point claims C1/C2 probe —
never writes anything into its storage view. -/

/-- Equality decision for `Except`, needed to evaluate concrete pipeline
runs in closed theorems. -/
instance exceptDecEq {ε : Type u} {α : Type v} [DecidableEq ε] [DecidableEq α] :
    DecidableEq (Except ε α) := fun x y =>
  match x, y with
  | .error a, .error b => decidable_of_iff (a = b) (by simp)
  | .error _, .ok _ => isFalse (fun h => Except.noConfusion h)
  | .ok _, .error _ => isFalse (fun h => Except.noConfusion h)
  | .ok a, .ok b => decidable_of_iff (a = b) (by simp)

/-- The execution host's state as the pipeline can affect it: the storage
view (a map from ledger keys to ledger entries) and the diagnostic level. -/
structure Host where
  diagnosticLevel : String
  storage : List (LedgerKey × LedgerEntry)
deriving DecidableEq

/-- `Host::default()`: empty storage, default diagnostics. -/
def Host.default : Host :=
  { diagnosticLevel := "None", storage := [] }

/-- The host right after main.rs lines 56-58: freshly constructed with the
diagnostic level raised to Debug. -/
def hostAfterInit : Host :=
  { Host.default with diagnosticLevel := "Debug" }

/-- A storage read as the host would issue it during simulation: the entry
paired with `k`, or `none` ("not found") when `k` is absent. -/
def Host.readEntry (h : Host) (k : LedgerKey) : Option LedgerEntry :=
  (h.storage.find? (fun p => p.1 = k)).map Prod.snd

/-! ## Request and response model (main.rs lines 7-21) -/

/-- `SimulationRequest` (main.rs lines 7-13). `envelope_xdr` and
`result_meta_xdr` are plain `String` fields; `ledger_entries` is an
`Option` map from key XDR to entry XDR. The map is represented as the
association list in the (arbitrary) order Rust's `HashMap` iterates it. -/
structure SimulationRequest where
  envelope_xdr : String
  result_meta_xdr : String
  ledger_entries : Option (List (String × String))

/-- `SimulationResponse` (main.rs lines 15-21). -/
structure SimulationResponse where
  status : String
  error : Option String
  events : List String
  logs : List String
deriving DecidableEq

/-- `send_error` (main.rs lines 164-172): the error response shape. -/
def send_error (msg : String) : SimulationResponse :=
  { status := "error", error := some msg, events := [], logs := [] }

/-- The top-level JSON request as received: each field either absent or
present. (Whether the blob is a JSON object at all is outside the model;
a non-object fails the same `Invalid JSON` path as a missing field.) -/
structure RawRequest where
  envelope_xdr : Option String
  result_meta_xdr : Option String
  ledger_entries : Option (List (String × String))

/-- Models `serde_json::from_str::<SimulationRequest>` for the struct at
main.rs lines 7-13: the derived deserializer requires the two non-`Option`
`String` fields (`envelope_xdr`, `result_meta_xdr`) and treats
`ledger_entries` as optional; a missing required field is a
deserialization error naming the field. -/
def parseRequest (raw : RawRequest) : Except String SimulationRequest :=
  match raw.envelope_xdr with
  | none => .error "missing field envelope_xdr"
  | some envelope_xdr =>
    match raw.result_meta_xdr with
    | none => .error "missing field result_meta_xdr"
    | some result_meta_xdr =>
      .ok { envelope_xdr := envelope_xdr
          , result_meta_xdr := result_meta_xdr
          , ledger_entries := raw.ledger_entries }

/-! ## The external decoders and the pipeline (main.rs `main`) -/

/-- The external collaborators `main` calls into: the base64 engine, the
three XDR parsers, and the host's event retrieval (`host.get_events()`
rendered for the response; its failure value is rendered too). -/
structure ExternalEnv where
  b64decode : String → Except String (List Nat)
  parseEnvelopeXdr : List Nat → Except String TransactionEnvelope
  parseKeyXdr : List Nat → Except String LedgerKey
  parseEntryXdr : List Nat → Except String LedgerEntry
  getEvents : Except String (List String)

/-- Decoding of one ledger (key, entry) pair, main.rs lines 65-79: base64
then XDR for the key, base64 then XDR for the entry, each failure turned
into the exact `send_error` message of the source; the decoded values are
bound to `_key`/`_entry` and discarded. -/
def decodePair (env : ExternalEnv) (p : String × String) : Except String Unit :=
  match env.b64decode p.1 with
  | .error e => .error ("Failed to decode LedgerKey Base64: " ++ e)
  | .ok b =>
    match env.parseKeyXdr b with
    | .error e => .error ("Failed to parse LedgerKey XDR: " ++ e)
    | .ok _key =>
      match env.b64decode p.2 with
      | .error e => .error ("Failed to decode LedgerEntry Base64: " ++ e)
      | .ok b2 =>
        match env.parseEntryXdr b2 with
        | .error e => .error ("Failed to parse LedgerEntry XDR: " ++ e)
        | .ok _entry => .ok ()

/-- The ledger-entries loop, main.rs lines 63-82: process pairs in
iteration order, returning the first failure's error message, or the
count of loaded entries when all decode. -/
def processEntries (env : ExternalEnv) : List (String × String) → Except String Nat
  | [] => .ok 0
  | p :: rest =>
    match decodePair env p with
    | .error m => .error m
    | .ok _ =>
      match processEntries env rest with
      | .error m => .error m
      | .ok n => .ok (n + 1)

/-- The `if let Some(entries)` guard around the loop (main.rs line 63):
an absent map loads zero entries. -/
def processRequestEntries (env : ExternalEnv) (request : SimulationRequest) :
    Except String Nat :=
  match request.ledger_entries with
  | some entries => processEntries env entries
  | none => .ok 0

/-- The dispatch loop, main.rs lines 95-107: push an invocation line for an
invoke-contract host function, a skip line for any other host function,
and nothing at all for operations that are not `InvokeHostFunction`
(the `if let` silently passes them by). -/
def dispatchOps : List Operation → List String
  | [] => []
  | op :: rest =>
    match op.body with
    | .InvokeHostFunction host_fn_op =>
      match host_fn_op.host_function with
      | .InvokeContract invoke_args =>
        ("Invoking Contract: " ++ invoke_args.contract_address) :: dispatchOps rest
      | .OtherHostFunction =>
        "Skipping non-InvokeContract Host Function" :: dispatchOps rest
    | .OtherOperation => dispatchOps rest

/-- A whole run's result: the response printed to stdout, plus the final
state of the execution host when one was constructed (`none` when the run
errored before main.rs line 56). -/
structure PipelineResult where
  response : SimulationResponse
  host : Option Host
deriving DecidableEq

/-- The success response assembled at main.rs lines 109-126: events from
`host.get_events()` (a retrieval failure becomes a single rendered entry),
the entry-count line first in the logs, then the invocation logs. -/
def successResponse (env : ExternalEnv) (envelope : TransactionEnvelope)
    (loaded_entries_count : Nat) : SimulationResponse :=
  { status := "success"
  , error := none
  , events :=
      match env.getEvents with
      | .ok evs => evs
      | .error e => ["Failed to retrieve events: " ++ e]
  , logs :=
      ("Host Initialized. Loaded " ++ toString loaded_entries_count ++ " Ledger Entries")
        :: dispatchOps (extractOperations envelope) }

/-- Pipeline stage after the host exists (main.rs lines 56-128): populate
(i.e. decode-and-count) the ledger entries, then dispatch and assemble.
Both exits carry `hostAfterInit`: the host exists and its storage is
whatever the loop left it (nothing is ever written). -/
def afterEnvelope (env : ExternalEnv) (request : SimulationRequest)
    (envelope : TransactionEnvelope) : PipelineResult :=
  match processRequestEntries env request with
  | .error msg => ⟨send_error msg, some hostAfterInit⟩
  | .ok loaded_entries_count =>
    ⟨successResponse env envelope loaded_entries_count, some hostAfterInit⟩

/-- Pipeline stage after the request parsed (main.rs lines 39-53): decode
the envelope base64, parse the envelope XDR; only then is the host
constructed. -/
def afterParse (env : ExternalEnv) (request : SimulationRequest) : PipelineResult :=
  match env.b64decode request.envelope_xdr with
  | .error e => ⟨send_error ("Failed to decode Envelope Base64: " ++ e), none⟩
  | .ok bytes =>
    match env.parseEnvelopeXdr bytes with
    | .error e => ⟨send_error ("Failed to parse Envelope XDR: " ++ e), none⟩
    | .ok envelope => afterEnvelope env request envelope

/-- `main` (main.rs lines 23-129) from the parsed stdin blob onward. -/
def runPipeline (env : ExternalEnv) (raw : RawRequest) : PipelineResult :=
  match parseRequest raw with
  | .error e => ⟨send_error ("Invalid JSON: " ++ e), none⟩
  | .ok request => afterParse env request

/-! ## Fault classifier (main.rs lines 131-162)

`decode_wasm_trap` receives a `HostError` and classifies its Debug
rendering; the model takes that rendered description directly. -/

/-- `decode_wasm_trap` (main.rs lines 132-162), applied to the rendered
description of the host error. -/
def decode_wasm_trap (err_str : String) : String :=
  let err_lower := toLowercase err_str
  if strContains err_lower "wasm trap" then
    if strContains err_lower "unreachable" then
      "Unreachable Instruction: The contract hit a panic or unreachable code path."
    else if strContains err_lower "out of bounds" then
      "Out of Bounds Access: The contract tried to access invalid memory (OOB)."
    else if strContains err_lower "integer overflow" then
      "Integer Overflow: A mathematical operation exceeded the type limits."
    else if strContains err_lower "stack overflow" then
      "Stack Overflow: The contract\x27s recursion or stack usage is too high."
    else if strContains err_lower "divide by zero" then
      "Division by Zero: The contract attempted to divide by zero."
    else
      "Wasm Trap: " ++ err_str
  else if strContains err_str "HostError" then
    "Host-initiated Trap: " ++ err_str
  else
    "Execution Error: " ++ err_str

/-- The spec's `FaultCategory` taxonomy (§3). -/
inductive FaultCategory where
  | UnreachableTrap
  | OutOfBoundsTrap
  | IntegerOverflowTrap
  | StackOverflowTrap
  | DivideByZeroTrap
  | GenericWasmTrap
  | HostInitiatedFault
  | UnclassifiedExecutionError
deriving DecidableEq

/-- The spec taxonomy read off the branches of `decode_wasm_trap`: which
branch of main.rs lines 137-161 fires for a given description. -/
def classifyCategory (err_str : String) : FaultCategory :=
  let err_lower := toLowercase err_str
  if strContains err_lower "wasm trap" then
    if strContains err_lower "unreachable" then .UnreachableTrap
    else if strContains err_lower "out of bounds" then .OutOfBoundsTrap
    else if strContains err_lower "integer overflow" then .IntegerOverflowTrap
    else if strContains err_lower "stack overflow" then .StackOverflowTrap
    else if strContains err_lower "divide by zero" then .DivideByZeroTrap
    else .GenericWasmTrap
  else if strContains err_str "HostError" then .HostInitiatedFault
  else .UnclassifiedExecutionError

/-! ## Helper lemmas about the ledger-entries loop -/

theorem processEntries_all_ok (env : ExternalEnv) (l : List (String × String))
    (h : ∀ q ∈ l, decodePair env q = .ok ()) :
    processEntries env l = .ok l.length := by
  induction l with
  | nil => rfl
  | cons p rest ih =>
    have hp : decodePair env p = .ok () := h p (List.mem_cons_self p rest)
    have hrest := ih (fun q hq => h q (List.mem_cons_of_mem p hq))
    simp [processEntries, hp, hrest]

theorem processEntries_error_head (env : ExternalEnv) (p : String × String)
    (rest : List (String × String)) (m : String)
    (h : decodePair env p = .error m) :
    processEntries env (p :: rest) = .error m := by
  simp [processEntries, h]

theorem processEntries_error_append (env : ExternalEnv)
    (pre l : List (String × String)) (m : String)
    (hpre : ∀ q ∈ pre, decodePair env q = .ok ())
    (hl : processEntries env l = .error m) :
    processEntries env (pre ++ l) = .error m := by
  induction pre with
  | nil => simpa using hl
  | cons p rest ih =>
    have hp : decodePair env p = .ok () := hpre p (List.mem_cons_self p rest)
    have hrest := ih (fun q hq => hpre q (List.mem_cons_of_mem p hq))
    simp [processEntries, hp, hrest]

theorem processEntries_error_of_unique (env : ExternalEnv)
    {p : String × String} {l : List (String × String)} {m : String}
    (hp : p ∈ l) (hm : decodePair env p = .error m)
    (hothers : ∀ q ∈ l, q ≠ p → decodePair env q = .ok ()) :
    processEntries env l = .error m := by
  induction l with
  | nil => cases hp
  | cons a t ih =>
    by_cases hap : a = p
    · subst hap
      exact processEntries_error_head env a t m hm
    · have ha : decodePair env a = .ok () := hothers a (List.mem_cons_self a t) hap
      have hpt : p ∈ t := by
        rcases List.mem_cons.mp hp with h | h
        · exact absurd h.symm hap
        · exact h
      have := ih hpt (fun q hq hqp => hothers q (List.mem_cons_of_mem a hq) hqp)
      simp [processEntries, ha, this]

/-- Processing the ledger-entries map is invariant under its iteration
order as long as at most one pair fails to decode: all-success runs count
the same number of pairs, and a unique failing pair yields its error
message wherever it sits. -/
theorem processEntries_eq_of_perm (env : ExternalEnv)
    {l₁ l₂ : List (String × String)} (hperm : l₁.Perm l₂)
    (huniq : ∀ p ∈ l₁, ∀ q ∈ l₁,
      decodePair env p ≠ .ok () → decodePair env q ≠ .ok () → p = q) :
    processEntries env l₁ = processEntries env l₂ := by
  by_cases hall : ∀ p ∈ l₁, decodePair env p = .ok ()
  · rw [processEntries_all_ok env l₁ hall,
      processEntries_all_ok env l₂ (fun p hp => hall p (hperm.mem_iff.mpr hp)),
      hperm.length_eq]
  · push_neg at hall
    obtain ⟨p, hp, hne⟩ := hall
    obtain ⟨m, hm⟩ : ∃ m, decodePair env p = .error m := by
      cases h : decodePair env p with
      | error m => exact ⟨m, rfl⟩
      | ok u => cases u; exact absurd h hne
    have hothers : ∀ q ∈ l₁, q ≠ p → decodePair env q = .ok () := by
      intro q hq hqp
      by_contra hq'
      exact hqp (huniq q hq p hp hq' hne)
    rw [processEntries_error_of_unique env hp hm hothers,
      processEntries_error_of_unique env (hperm.mem_iff.mp hp) hm
        (fun q hq hqp => hothers q (hperm.mem_iff.mpr hq) hqp)]

/-! ## Concrete fixtures used by closed theorems -/

/-- An environment in which every external decode succeeds: base64 yields
empty byte strings, the envelope parses to a v1 envelope with no
operations, keys and entries parse to fixed decoded values, and event
retrieval returns no events. -/
def envAllOk : ExternalEnv :=
  { b64decode := fun _ => .ok []
  , parseEnvelopeXdr := fun _ => .ok (.Tx ⟨⟨[]⟩⟩)
  , parseKeyXdr := fun _ => .ok ⟨0⟩
  , parseEntryXdr := fun _ => .ok ⟨0⟩
  , getEvents := .ok [] }

/-- An environment whose base64 engine accepts only the text `"E"` and
rejects everything else, echoing the rejected text in the error value. -/
def envB64Picky : ExternalEnv :=
  { b64decode := fun s => if s = "E" then .ok [] else .error s
  , parseEnvelopeXdr := fun _ => .ok (.Tx ⟨⟨[]⟩⟩)
  , parseKeyXdr := fun _ => .ok ⟨0⟩
  , parseEntryXdr := fun _ => .ok ⟨0⟩
  , getEvents := .ok [] }

/-- A well-formed raw request with one ledger (key, entry) pair. -/
def rawOnePair : RawRequest :=
  ⟨some "E", some "M", some [("K", "V")]⟩

/-! ## Further fixtures and characterizations used by the claims -/

/-- An all-decoding environment whose event retrieval fails. -/
def envEventsFail : ExternalEnv := { envAllOk with getEvents := .error "boom" }

/-- A raw request whose envelope text is rejected by `envB64Picky`. -/
def rawBadEnvelope : RawRequest := ⟨some "X", some "M", none⟩

/-- The log line the dispatch loop actually produces for one operation:
an invocation line for an invoke-contract host function, a skip line for
any other host-function kind, and nothing for any other operation kind. -/
def dispatchLogLine (op : Operation) : Option String :=
  match op.body with
  | .InvokeHostFunction host_fn_op =>
    match host_fn_op.host_function with
    | .InvokeContract invoke_args =>
      some ("Invoking Contract: " ++ invoke_args.contract_address)
    | .OtherHostFunction => some "Skipping non-InvokeContract Host Function"
  | .OtherOperation => none

/-- Two raw request blobs denote the same request when their scalar fields
agree and their `ledger_entries` maps hold the same pairs; the list order
inside `some` is the (nondeterministic) iteration order of Rust's
`HashMap`, which is not part of the request. -/
def sameRequest (raw₁ raw₂ : RawRequest) : Prop :=
  raw₁.envelope_xdr = raw₂.envelope_xdr ∧
  raw₁.result_meta_xdr = raw₂.result_meta_xdr ∧
  raw₁.ledger_entries.isSome = raw₂.ledger_entries.isSome ∧
  (raw₁.ledger_entries.getD []).Perm (raw₂.ledger_entries.getD [])

/-- Two iteration orders of one two-pair map whose keys both fail base64
decoding under `envB64Picky`. -/
def rawTwoBadA : RawRequest := ⟨some "E", some "M", some [("A", "x"), ("B", "y")]⟩

/-- The other iteration order of the map in `rawTwoBadA`. -/
def rawTwoBadB : RawRequest := ⟨some "E", some "M", some [("B", "y"), ("A", "x")]⟩

/-- In every run the execution host's storage is left empty: the
ledger-entries loop decodes and discards each pair and never writes the
host's storage view. -/
theorem host_storage_never_written (env : ExternalEnv) (raw : RawRequest) (h : Host)
    (hh : (runPipeline env raw).host = some h) : h.storage = [] := by
  cases hp : parseRequest raw with
  | error e => simp [runPipeline, hp] at hh
  | ok request =>
    cases hb : env.b64decode request.envelope_xdr with
    | error e => simp [runPipeline, hp, afterParse, hb] at hh
    | ok bytes =>
      cases hx : env.parseEnvelopeXdr bytes with
      | error e => simp [runPipeline, hp, afterParse, hb, hx] at hh
      | ok envelope =>
        cases hq : processRequestEntries env request with
        | error m =>
          simp [runPipeline, hp, afterParse, hb, hx, afterEnvelope, hq] at hh
          rw [← hh]
          rfl
        | ok n =>
          simp [runPipeline, hp, afterParse, hb, hx, afterEnvelope, hq] at hh
          rw [← hh]
          rfl

/-! ## Claims -/

/-- C1 (counterexample): a request whose ledger key is malformed base64
produces the Base64 error response, but the execution host HAS been
initialized before that response is produced (`host.isSome = true`),
contradicting the claim that the host is never initialized before a
Base64 error response. -/
theorem C1_counterexample :
    runPipeline envB64Picky rawOnePair =
      ⟨send_error "Failed to decode LedgerKey Base64: K", some hostAfterInit⟩ ∧
    strContains "Failed to decode LedgerKey Base64: K" "Base64" = true ∧
    (runPipeline envB64Picky rawOnePair).host.isSome = true := by
  decide

/-- C1 (amended): malformed base64 at any decode entry point yields
`status="error"` with a message mentioning "Base64"; for the envelope
entry point the host is not yet initialized (`host = none`), while for
the ledger key/entry entry points the resulting error message still
mentions "Base64" but the run has already initialized the host
(`host = some hostAfterInit`). -/
theorem C1_amended :
    (∀ (env : ExternalEnv) (raw : RawRequest) (request : SimulationRequest) (e : String),
      parseRequest raw = .ok request →
      env.b64decode request.envelope_xdr = .error e →
      runPipeline env raw =
        ⟨send_error ("Failed to decode Envelope Base64: " ++ e), none⟩ ∧
      strContains ("Failed to decode Envelope Base64: " ++ e) "Base64" = true)
    ∧ (∀ (env : ExternalEnv) (pre post : List (String × String))
        (p : String × String) (e : String),
      (∀ q ∈ pre, decodePair env q = .ok ()) →
      env.b64decode p.1 = .error e →
      processEntries env (pre ++ p :: post) =
        .error ("Failed to decode LedgerKey Base64: " ++ e) ∧
      strContains ("Failed to decode LedgerKey Base64: " ++ e) "Base64" = true)
    ∧ (∀ (env : ExternalEnv) (pre post : List (String × String))
        (p : String × String) (kb : List Nat) (k : LedgerKey) (e : String),
      (∀ q ∈ pre, decodePair env q = .ok ()) →
      env.b64decode p.1 = .ok kb →
      env.parseKeyXdr kb = .ok k →
      env.b64decode p.2 = .error e →
      processEntries env (pre ++ p :: post) =
        .error ("Failed to decode LedgerEntry Base64: " ++ e) ∧
      strContains ("Failed to decode LedgerEntry Base64: " ++ e) "Base64" = true)
    ∧ (∀ (env : ExternalEnv) (raw : RawRequest) (request : SimulationRequest)
        (bytes : List Nat) (envelope : TransactionEnvelope)
        (pairs : List (String × String)) (m : String),
      parseRequest raw = .ok request →
      env.b64decode request.envelope_xdr = .ok bytes →
      env.parseEnvelopeXdr bytes = .ok envelope →
      request.ledger_entries = some pairs →
      processEntries env pairs = .error m →
      runPipeline env raw = ⟨send_error m, some hostAfterInit⟩) := by
  refine ⟨?_, ?_, ?_, ?_⟩
  · intro env raw request e h1 h2
    refine ⟨by simp [runPipeline, h1, afterParse, h2], ?_⟩
    exact strContains_append_left "Base64" (by decide) e
  · intro env pre post p e hpre hb
    have hp : decodePair env p = .error ("Failed to decode LedgerKey Base64: " ++ e) := by
      simp [decodePair, hb]
    refine ⟨processEntries_error_append env pre (p :: post) _ hpre
      (processEntries_error_head env p post _ hp), ?_⟩
    exact strContains_append_left "Base64" (by decide) e
  · intro env pre post p kb k e hpre hb hk he
    have hp : decodePair env p = .error ("Failed to decode LedgerEntry Base64: " ++ e) := by
      simp [decodePair, hb, hk, he]
    refine ⟨processEntries_error_append env pre (p :: post) _ hpre
      (processEntries_error_head env p post _ hp), ?_⟩
    exact strContains_append_left "Base64" (by decide) e
  · intro env raw request bytes envelope pairs m h1 h2 h3 hle hpe
    simp [runPipeline, h1, afterParse, h2, h3, afterEnvelope, processRequestEntries, hle, hpe]

/-- C1 (witness): the amended claim at concrete inputs — a rejected
envelope text yields the envelope Base64 error with no host, and a
rejected ledger key yields the ledger-key Base64 error with the host
already initialized. -/
theorem C1_amended_witness :
    (runPipeline envB64Picky rawBadEnvelope =
      ⟨send_error ("Failed to decode Envelope Base64: " ++ "X"), none⟩ ∧
     strContains ("Failed to decode Envelope Base64: " ++ "X") "Base64" = true)
    ∧ runPipeline envB64Picky rawOnePair =
        ⟨send_error ("Failed to decode LedgerKey Base64: " ++ "K"), some hostAfterInit⟩ :=
  ⟨C1_amended.1 envB64Picky rawBadEnvelope _ "X" rfl rfl,
   C1_amended.2.2.2 envB64Picky rawOnePair _ _ _ [("K", "V")] _ rfl rfl rfl rfl
     (C1_amended.2.1 envB64Picky [] [] ("K", "V") "K" (by simp) rfl).1⟩

/-- C2 (code bug): on a request with one ledger (key, entry) pair that
decodes successfully, the run ends with `status="success"`, the snapshot
key decodes to the ledger key `⟨0⟩`, yet the final host's storage view
reports "not found" for that very key — the loop headed "Populate Host
Storage" decodes each pair into `_key`/`_entry` and discards both without
ever writing the host's storage. -/
theorem C2_code_bug :
    (runPipeline envAllOk rawOnePair).response.status = "success" ∧
    envAllOk.b64decode "K" = .ok [] ∧
    envAllOk.parseKeyXdr [] = .ok ⟨0⟩ ∧
    (runPipeline envAllOk rawOnePair).host = some hostAfterInit ∧
    Host.readEntry hostAfterInit ⟨0⟩ = none := by
  decide

/-- C3 (counterexample): an envelope whose single operation is not an
invoke-host-function operation yields zero dispatcher log lines, not the
one skip line per operation the claim requires. -/
theorem C3_counterexample :
    dispatchOps [⟨OperationBody.OtherOperation⟩] = [] ∧
    (dispatchOps [⟨OperationBody.OtherOperation⟩]).length ≠
      [Operation.mk OperationBody.OtherOperation].length := by
  decide

/-- C3 (amended): the dispatcher appends, in envelope order, exactly one
log line per invoke-host-function operation — an "Invoking Contract"
line for an invoke-contract host function, a skip line for any other
host-function kind — and no log line at all for operations of any other
kind. -/
theorem C3_amended (ops : List Operation) :
    dispatchOps ops = ops.filterMap dispatchLogLine := by
  induction ops with
  | nil => rfl
  | cons op rest ih =>
    cases hb : op.body with
    | InvokeHostFunction hf =>
      cases hhf : hf.host_function with
      | InvokeContract args => simp [dispatchOps, dispatchLogLine, hb, hhf, ih]
      | OtherHostFunction => simp [dispatchOps, dispatchLogLine, hb, hhf, ih]
    | OtherOperation => simp [dispatchOps, dispatchLogLine, hb, ih]

/-- C4 (counterexample): a request that omits `result_meta_xdr` fails with
the request-shape error (and under an environment in which every decode
would succeed, so the failure is not a decode failure): the field is
required, not optional. -/
theorem C4_counterexample :
    runPipeline envAllOk ⟨some "E", none, none⟩ =
      ⟨send_error ("Invalid JSON: " ++ "missing field result_meta_xdr"), none⟩ := by
  decide

/-- C4 (amended): `result_meta_xdr` is a required field of
`SimulationRequest`: every request that omits it fails with the
request-shape error, uniformly in the decoding environment — so the
envelope is never decoded. -/
theorem C4_amended (env : ExternalEnv) (raw : RawRequest) (e : String)
    (h1 : raw.envelope_xdr = some e) (h2 : raw.result_meta_xdr = none) :
    runPipeline env raw =
      ⟨send_error ("Invalid JSON: " ++ "missing field result_meta_xdr"), none⟩ := by
  simp [runPipeline, parseRequest, h1, h2]

/-- C4 (witness): the amended claim at a concrete request, under an
environment whose base64 engine would reject the ledger keys — the
missing-field error wins regardless. -/
theorem C4_amended_witness :
    runPipeline envB64Picky ⟨some "E", none, some [("K", "V")]⟩ =
      ⟨send_error ("Invalid JSON: " ++ "missing field result_meta_xdr"), none⟩ :=
  C4_amended envB64Picky ⟨some "E", none, some [("K", "V")]⟩ "E" rfl rfl

/-- C5: whenever the request parses, the envelope decodes, and every
ledger pair decodes, the response has `status="success"` and no error —
for every possible outcome of the host's event retrieval, since the
dispatcher never calls the host's invoke primitive, no host execution
fault can turn the outcome into a failure. -/
theorem C5_success_despite_host_faults (env : ExternalEnv) (raw : RawRequest)
    (request : SimulationRequest) (bytes : List Nat)
    (envelope : TransactionEnvelope) (n : Nat)
    (h1 : parseRequest raw = .ok request)
    (h2 : env.b64decode request.envelope_xdr = .ok bytes)
    (h3 : env.parseEnvelopeXdr bytes = .ok envelope)
    (h4 : processRequestEntries env request = .ok n) :
    (runPipeline env raw).response.status = "success" ∧
    (runPipeline env raw).response.error = none := by
  simp [runPipeline, h1, afterParse, h2, h3, afterEnvelope, h4, successResponse]

/-- C5 (witness): a concrete decodable request under an environment whose
event retrieval fails still yields a success response with no error. -/
theorem C5_success_despite_host_faults_witness :
    (runPipeline envEventsFail rawOnePair).response.status = "success" ∧
    (runPipeline envEventsFail rawOnePair).response.error = none :=
  C5_success_despite_host_faults envEventsFail rawOnePair _ _ _ _ rfl rfl rfl rfl

/-- C6 (counterexample): a description containing both "wasm trap" and
"out of bounds" need not classify as out-of-bounds — when "unreachable"
is also present, the earlier sub-check wins and the unreachable message
is returned instead. -/
theorem C6_counterexample :
    strContains (toLowercase "wasm trap: unreachable and out of bounds") "wasm trap" = true ∧
    strContains (toLowercase "wasm trap: unreachable and out of bounds") "out of bounds" = true ∧
    decode_wasm_trap "wasm trap: unreachable and out of bounds" =
      "Unreachable Instruction: The contract hit a panic or unreachable code path." ∧
    decode_wasm_trap "wasm trap: unreachable and out of bounds" ≠
      "Out of Bounds Access: The contract tried to access invalid memory (OOB)." := by
  decide

/-- C6 (amended): a failure description containing "wasm trap" and
"out of bounds" but not the earlier-checked "unreachable" classifies to
exactly the canned out-of-bounds message (taking priority over the
generic fallback); and any description containing "wasm trap" and
"unreachable" classifies to the canned unreachable message, reflecting
that "unreachable" is checked first in the fixed sub-classification
order. -/
theorem C6_amended :
    (∀ s, strContains (toLowercase s) "wasm trap" = true →
      strContains (toLowercase s) "out of bounds" = true →
      strContains (toLowercase s) "unreachable" = false →
      decode_wasm_trap s =
        "Out of Bounds Access: The contract tried to access invalid memory (OOB).")
    ∧ (∀ s, strContains (toLowercase s) "wasm trap" = true →
      strContains (toLowercase s) "unreachable" = true →
      decode_wasm_trap s =
        "Unreachable Instruction: The contract hit a panic or unreachable code path.") := by
  constructor
  · intro s h1 h2 h3
    simp [decode_wasm_trap, h1, h2, h3]
  · intro s h1 h2
    simp [decode_wasm_trap, h1, h2]

/-- C6 (witness): the amended claim at concrete descriptions. -/
theorem C6_amended_witness :
    decode_wasm_trap "wasm trap: out of bounds" =
      "Out of Bounds Access: The contract tried to access invalid memory (OOB)." ∧
    decode_wasm_trap "wasm trap: unreachable" =
      "Unreachable Instruction: The contract hit a panic or unreachable code path." :=
  ⟨C6_amended.1 "wasm trap: out of bounds" (by decide) (by decide) (by decide),
   C6_amended.2 "wasm trap: unreachable" (by decide) (by decide)⟩

/-- C7 (counterexample): classification is NOT case-insensitive in every
branch — "HostError" and "hosterror" agree after lowercasing, yet the
former classifies as a host-initiated fault and the latter as an
unclassified execution error, because the host-fault branch matches
"HostError" against the RAW description. -/
theorem C7_counterexample :
    toLowercase "HostError" = toLowercase "hosterror" ∧
    classifyCategory "HostError" = FaultCategory.HostInitiatedFault ∧
    classifyCategory "hosterror" = FaultCategory.UnclassifiedExecutionError ∧
    decode_wasm_trap "HostError" = "Host-initiated Trap: " ++ "HostError" ∧
    decode_wasm_trap "hosterror" = "Execution Error: " ++ "hosterror" := by
  decide

/-- C7 (amended): the wasm-trap branch and its sub-classifications match
lowercased substrings, so descriptions that agree after lowercasing and
contain "wasm trap" receive the same category; but the host-fault branch
matches "HostError" case-sensitively against the raw description, so a
description without "wasm trap" is classified `HostInitiatedFault` (with
message "Host-initiated Trap: <raw>") exactly when it contains the
indicator in that exact letter case. -/
theorem C7_amended :
    (∀ s₁ s₂, toLowercase s₁ = toLowercase s₂ →
      strContains (toLowercase s₁) "wasm trap" = true →
      classifyCategory s₁ = classifyCategory s₂)
    ∧ (∀ s, strContains (toLowercase s) "wasm trap" = false →
      strContains s "HostError" = true →
      classifyCategory s = FaultCategory.HostInitiatedFault ∧
      decode_wasm_trap s = "Host-initiated Trap: " ++ s) := by
  constructor
  · intro s₁ s₂ h hw
    have hw₂ : strContains (toLowercase s₂) "wasm trap" = true := by rw [← h]; exact hw
    simp only [classifyCategory]
    rw [h]
    simp [hw₂]
  · intro s h1 h2
    constructor
    · simp [classifyCategory, h1, h2]
    · simp [decode_wasm_trap, h1, h2]

/-- C7 (witness): the amended claim at concrete descriptions. -/
theorem C7_amended_witness :
    classifyCategory "WASM TRAP zz" = classifyCategory "wasm trap ZZ" ∧
    classifyCategory "xHostErrorx" = FaultCategory.HostInitiatedFault ∧
    decode_wasm_trap "xHostErrorx" = "Host-initiated Trap: " ++ "xHostErrorx" :=
  ⟨C7_amended.1 "WASM TRAP zz" "wasm trap ZZ" (by decide) (by decide),
   (C7_amended.2 "xHostErrorx" (by decide) (by decide)).1,
   (C7_amended.2 "xHostErrorx" (by decide) (by decide)).2⟩

/-- C8: a well-formed request (request parses, envelope decodes, all
ledger pairs decode) whose envelope has zero operations, under a host
whose event retrieval returns the empty accumulated list, yields
`status="success"`, empty events, and logs consisting only of the
entry-count line. -/
theorem C8_zero_operations (env : ExternalEnv) (raw : RawRequest)
    (request : SimulationRequest) (bytes : List Nat)
    (envelope : TransactionEnvelope) (n : Nat)
    (h1 : parseRequest raw = .ok request)
    (h2 : env.b64decode request.envelope_xdr = .ok bytes)
    (h3 : env.parseEnvelopeXdr bytes = .ok envelope)
    (h4 : extractOperations envelope = [])
    (h5 : processRequestEntries env request = .ok n)
    (h6 : env.getEvents = .ok []) :
    (runPipeline env raw).response =
      { status := "success", error := none, events := [],
        logs := ["Host Initialized. Loaded " ++ toString n ++ " Ledger Entries"] } := by
  simp [runPipeline, h1, afterParse, h2, h3, afterEnvelope, h5, successResponse, h6, h4,
    dispatchOps]

/-- C8 (witness): a concrete zero-operation request with one ledger pair. -/
theorem C8_zero_operations_witness :
    (runPipeline envAllOk rawOnePair).response =
      { status := "success", error := none, events := [],
        logs := ["Host Initialized. Loaded " ++ toString 1 ++ " Ledger Entries"] } :=
  C8_zero_operations envAllOk rawOnePair _ _ _ 1 rfl rfl rfl rfl rfl rfl

/-- C9 (counterexample): one request — a two-pair ledger map in which both
keys are malformed base64 — run under its two possible map-iteration
orders produces different responses (each names a different failing
key), so byte-identical responses across runs are not guaranteed. -/
theorem C9_counterexample :
    sameRequest rawTwoBadA rawTwoBadB ∧
    runPipeline envB64Picky rawTwoBadA ≠ runPipeline envB64Picky rawTwoBadB := by
  constructor
  · exact ⟨rfl, rfl, rfl, by decide⟩
  · decide

/-- C9 (amended): the pipeline is deterministic up to the ledger map's
iteration order, and the iteration order is invisible whenever at most
one ledger pair fails to decode: two runs of the same request (same
fields, `ledger_entries` maps equal as multisets) produce identical
responses under that proviso. With two or more malformed pairs the
reported error depends on the iteration order, as the counterexample
shows. -/
theorem C9_amended (env : ExternalEnv) (raw₁ raw₂ : RawRequest)
    (hsame : sameRequest raw₁ raw₂)
    (huniq : ∀ p ∈ raw₁.ledger_entries.getD [], ∀ q ∈ raw₁.ledger_entries.getD [],
      decodePair env p ≠ .ok () → decodePair env q ≠ .ok () → p = q) :
    runPipeline env raw₁ = runPipeline env raw₂ := by
  obtain ⟨he, hm, hs, hperm⟩ := hsame
  cases h1 : raw₁.envelope_xdr with
  | none =>
    have h2 : raw₂.envelope_xdr = none := he.symm.trans h1
    simp [runPipeline, parseRequest, h1, h2]
  | some e =>
    have h2 : raw₂.envelope_xdr = some e := he.symm.trans h1
    cases hm1 : raw₁.result_meta_xdr with
    | none =>
      have hm2 : raw₂.result_meta_xdr = none := hm.symm.trans hm1
      simp [runPipeline, parseRequest, h1, h2, hm1, hm2]
    | some meta =>
      have hm2 : raw₂.result_meta_xdr = some meta := hm.symm.trans hm1
      have hr1 : parseRequest raw₁ = .ok ⟨e, meta, raw₁.ledger_entries⟩ := by
        simp [parseRequest, h1, hm1]
      have hr2 : parseRequest raw₂ = .ok ⟨e, meta, raw₂.ledger_entries⟩ := by
        simp [parseRequest, h2, hm2]
      have hpe : processRequestEntries env ⟨e, meta, raw₁.ledger_entries⟩ =
          processRequestEntries env ⟨e, meta, raw₂.ledger_entries⟩ := by
        cases hl1 : raw₁.ledger_entries with
        | none =>
          cases hl2 : raw₂.ledger_entries with
          | none => simp [processRequestEntries, hl1, hl2]
          | some l => rw [hl1, hl2] at hs; simp at hs
        | some l₁ =>
          cases hl2 : raw₂.ledger_entries with
          | none => rw [hl1, hl2] at hs; simp at hs
          | some l₂ =>
            rw [hl1, hl2] at hperm
            rw [hl1] at huniq
            simp only [Option.getD_some] at hperm huniq
            simp only [processRequestEntries]
            exact processEntries_eq_of_perm env hperm huniq
      simp only [runPipeline, hr1, hr2, afterParse]
      cases hb : env.b64decode e with
      | error e' => rfl
      | ok bytes =>
        cases hx : env.parseEnvelopeXdr bytes with
        | error e' => simp [hx]
        | ok envelope => simp [hx, afterEnvelope, hpe]

/-- C9 (witness): the amended claim at a concrete request whose two-pair
map decodes fully, under its two iteration orders. -/
theorem C9_amended_witness :
    runPipeline envAllOk rawTwoBadA = runPipeline envAllOk rawTwoBadB :=
  C9_amended envAllOk rawTwoBadA rawTwoBadB ⟨rfl, rfl, rfl, by decide⟩ (by decide)

/-- C10: every response the pipeline produces carries an error message
exactly when its status is "error", and every error response has empty
events and logs. -/
theorem C10_response_invariant (env : ExternalEnv) (raw : RawRequest) :
    (((runPipeline env raw).response.error.isSome = true) ↔
      (runPipeline env raw).response.status = "error")
    ∧ ((runPipeline env raw).response.status = "error" →
        (runPipeline env raw).response.events = [] ∧
        (runPipeline env raw).response.logs = []) := by
  cases hp : parseRequest raw with
  | error e => simp [runPipeline, hp, send_error]
  | ok request =>
    cases hb : env.b64decode request.envelope_xdr with
    | error e => simp [runPipeline, hp, afterParse, hb, send_error]
    | ok bytes =>
      cases hx : env.parseEnvelopeXdr bytes with
      | error e => simp [runPipeline, hp, afterParse, hb, hx, send_error]
      | ok envelope =>
        cases hq : processRequestEntries env request with
        | error m =>
          simp [runPipeline, hp, afterParse, hb, hx, afterEnvelope, hq, send_error]
        | ok n =>
          simp [runPipeline, hp, afterParse, hb, hx, afterEnvelope, hq, successResponse]

/-- C10 (witness): the invariant applied to a concrete error run — the
error message is present and the events and logs are empty. -/
theorem C10_response_invariant_witness :
    (runPipeline envB64Picky rawBadEnvelope).response.error.isSome = true ∧
    (runPipeline envB64Picky rawBadEnvelope).response.events = [] ∧
    (runPipeline envB64Picky rawBadEnvelope).response.logs = [] :=
  ⟨(C10_response_invariant envB64Picky rawBadEnvelope).1.mpr (by decide),
   (C10_response_invariant envB64Picky rawBadEnvelope).2 (by decide)⟩
